import Mathlib

/-!
Verification of the company-resolution pipeline
(`PT1_wikiScraping.py`, `PT1_bingSeleniumScraping.py`, `PT1_yFinScraping.py`).

The Python sources are shallowly embedded: strings are `String` (lists of
characters), Python dictionaries are association lists with insert-overwrite
semantics, the external services (Wikipedia library, Bing via Selenium,
Yahoo Finance) are oracles passed in as function-valued environments, and
the MongoDB collection is a list of documents with first-match update
semantics.
-/

/-- Python substring test `needle in hay` on character lists: true iff
`needle` occurs contiguously in `hay`; the empty needle occurs in every
string (Python `"" in s` is `True`). -/
def occursIn (needle : List Char) : List Char → Bool
  | [] => needle.isEmpty
  | c :: rest => needle.isPrefixOf (c :: rest) || occursIn needle rest

/-- Python truthiness of an optional string: `None` and `''` are falsy. -/
def pyTruthyOptStr : Option String → Bool
  | none => false
  | some s => s ≠ ""

/-- The identity card (`VCardDictionary` in the source): a Python dict
from header text to data text, modelled as an association list with
unique keys. -/
abbrev VCard := List (String × String)

/-- The triple returned by `getFromWikipedia` in the source:
`(URL, VCardDictionary, Cleaned)` on success, `(None, None, None)` on
every failure path. -/
abbrev WikiTriple := Option String × Option VCard × Option String

/-- Python `dict.get` restricted to the `'Traded as'` key: the first (and,
by construction of the dict, only) binding of that key. -/
def tradedAsOf (vc : VCard) : Option String :=
  (vc.find? (fun kv => kv.1 = "Traded as")).map (fun kv => kv.2)

/-- The Validation Gate, from `PT1_wikiScraping.py` line 92:
`Ticker in VCardDictionary.get('Traded as', '')` — a case-sensitive
substring test against the `'Traded as'` value, with an absent key read
as the empty string. -/
def validationGate (Ticker : String) (vc : VCard) : Bool :=
  occursIn Ticker.data ((tradedAsOf vc).getD "").data

/-- One left-to-right pass of `re.sub` for the patterns used by the source:
an opening bracket, one or more characters of the class `p`, and a closing
bracket, deleted; everything else copied.  The first argument carries the
state of a partially matched bracket group (the class characters seen so
far, reversed), `none` when not inside a candidate match.  Because the
class never contains `[` or `]`, the maximal munch performed here agrees
with the regex engine's backtracking search. -/
def subBrAux (p : Char → Bool) : Option (List Char) → List Char → List Char
  | none, [] => []
  | none, c :: rest =>
      if c = '[' then subBrAux p (some []) rest else c :: subBrAux p none rest
  | some acc, [] => '[' :: acc.reverse
  | some acc, c :: rest =>
      if p c then subBrAux p (some (c :: acc)) rest
      else if c = ']' then
        (if acc.isEmpty then '[' :: ']' :: subBrAux p none rest
         else subBrAux p none rest)
      else if c = '[' then ('[' :: acc.reverse) ++ subBrAux p (some []) rest
      else ('[' :: acc.reverse) ++ (c :: subBrAux p none rest)

/-- `re.sub(r'\[\d+\]', '', s)`: delete citation markers. -/
def subCitations (l : List Char) : List Char :=
  subBrAux Char.isDigit none l

/-- `.replace('\xa0', ' ')` on a Python string: non-breaking spaces become
regular spaces. -/
def nbspToSpace (s : String) : String :=
  String.mk (s.data.map (fun c => if c = '\xA0' then ' ' else c))

/-- The value normalisation applied by `ParseVCard`
(`PT1_wikiScraping.py` lines 134-136): non-breaking spaces replaced, then
citation markers `[digits]` deleted. -/
def cleanValue (v : String) : String :=
  String.mk (subCitations (nbspToSpace v).data)

/-- Python dict assignment `d[k] = v`: overwrite the binding of `k` if
present (keeping its position, as Python dicts do), else append. -/
def dictInsert (k v : String) : VCard → VCard
  | [] => [(k, v)]
  | (k', v') :: rest =>
      if k' = k then (k, v) :: rest else (k', v') :: dictInsert k v rest

/-- A table row as BeautifulSoup exposes it to `ParseVCard`: the text of
the first `th` cell and the first `td` cell, when present. -/
structure HtmlRow where
  header : Option String
  data : Option String
deriving DecidableEq

/-- A table as BeautifulSoup exposes it: its class attribute values and
its rows. -/
structure HtmlTable where
  classes : List String
  rows : List HtmlRow
deriving DecidableEq

/-- A parsed HTML document, reduced to the part `ParseVCard` inspects:
its tables in document order. -/
abbrev HtmlDoc := List HtmlTable

/-- `Soup.find('table', class_ = ['inforbox', 'vcard'])`: the first table
carrying either listed class (the `'inforbox'` spelling is the source's). -/
def findInfobox (doc : HtmlDoc) : Option HtmlTable :=
  doc.find? (fun t => t.classes.contains "inforbox" || t.classes.contains "vcard")

/-- The body of `ParseVCard`'s row loop (`PT1_wikiScraping.py` lines
128-139): rows with both a header and a data cell contribute the
normalised pair, unless either side is empty after normalisation. -/
def parseRow (acc : VCard) (row : HtmlRow) : VCard :=
  match row.header, row.data with
  | some h, some d =>
      let key := nbspToSpace h
      let val := cleanValue d
      if key ≠ "" ∧ val ≠ "" then dictInsert key val acc else acc
  | _, _ => acc

/-- `ParseVCard` (`PT1_wikiScraping.py` lines 119-141): empty mapping when
no info region is found, otherwise the fold of the row loop over the first
matching table's rows. -/
def ParseVCard (doc : HtmlDoc) : VCard :=
  match findInfobox doc with
  | none => []
  | some tbl => tbl.rows.foldl parseRow []

/-- ASCII letter, the `[a-zA-Z]` part of the editorial-note class. -/
def isAsciiAlpha (c : Char) : Bool :=
  ('a' ≤ c && c ≤ 'z') || ('A' ≤ c && c ≤ 'Z')

/-- The character set of Python's regex `\s` and of `str.strip()` for
Unicode strings. -/
def isPySpace (c : Char) : Bool :=
  c = ' ' || ('\x09' ≤ c && c ≤ '\x0D') || ('\x1C' ≤ c && c ≤ '\x1F') ||
  c = '\x85' || c = '\xA0' || c = '\u1680' ||
  ('\u2000' ≤ c && c ≤ '\u200A') || c = '\u2028' || c = '\u2029' ||
  c = '\u202F' || c = '\u205F' || c = '\u3000'

/-- `re.sub(r'\[[a-zA-Z\s]+\]', '', s)`: delete bracketed editorial
notes. -/
def subEditorial (l : List Char) : List Char :=
  subBrAux (fun c => isAsciiAlpha c || isPySpace c) none l

/-- Case-insensitive (ASCII, as in `re.IGNORECASE` over an ASCII pattern)
test that `pat` is a prefix of the second list. -/
def ciIsPrefix : List Char → List Char → Bool
  | [], _ => true
  | _ :: _, [] => false
  | p :: ps, c :: cs => (p.toLower = c.toLower) && ciIsPrefix ps cs

/-- `re.split(pat, s, flags = re.IGNORECASE)[0]` for a literal pattern:
the prefix of `s` before its first case-insensitive occurrence of `pat`,
or all of `s` when there is none. -/
def splitFirstCI (pat : List Char) : List Char → List Char
  | [] => []
  | c :: rest =>
      if ciIsPrefix pat (c :: rest) then [] else c :: splitFirstCI pat rest

/-- Emission step for newline-run collapsing: a run of `n` pending
newlines becomes two newlines when `n ≥ 3`, else itself. -/
def emitNl (n : Nat) : List Char :=
  if 3 ≤ n then ['\n', '\n'] else List.replicate n '\n'

/-- `re.sub(r'\n{3,}', '\n\n', s)` as a single pass: `n` counts the
pending run of newlines. -/
def collapseNlAux : Nat → List Char → List Char
  | n, [] => emitNl n
  | n, c :: rest =>
      if c = '\n' then collapseNlAux (n + 1) rest
      else emitNl n ++ (c :: collapseNlAux 0 rest)

/-- `re.sub(r'\n{3,}', '\n\n', s)`. -/
def collapseNl (l : List Char) : List Char := collapseNlAux 0 l

/-- Trailing-whitespace removal half of Python `str.strip()`. -/
def dropTrail (l : List Char) : List Char :=
  (l.reverse.dropWhile isPySpace).reverse

/-- Python `str.strip()` with no argument: drop leading and trailing
whitespace characters. -/
def pyStrip (l : List Char) : List Char :=
  dropTrail (l.dropWhile isPySpace)

/-- The `EndSections` list of `CleanWikipediaContent`, in source order. -/
def endSections : List String :=
  ["See also", "References", "External links", "Further reading",
   "Notes", "Citations"]

/-- The literal pattern `f'\n== {Section} ==\n'` built for each end
section. -/
def sectionPat (sec : String) : List Char :=
  '\n' :: ("== ".data ++ sec.data ++ " ==".data) ++ ['\n']

/-- `CleanWikipediaContent` (`PT1_wikiScraping.py` lines 100-117):
empty in, empty out; otherwise delete citation markers, delete editorial
notes, split away each end section in the fixed order (each split keeps
the text before the first case-insensitive occurrence of the heading
pattern in the text retained so far), collapse runs of three or more
newlines to two, and strip. -/
def CleanWikipediaContent (content : String) : String :=
  if content = "" then ""
  else
    let l1 := subCitations content.data
    let l2 := subEditorial l1
    let l3 := endSections.foldl (fun acc sec => splitFirstCI (sectionPat sec) acc) l2
    String.mk (pyStrip (collapseNl l3))

/-- Truncation as the claim words it: cut at the first case-insensitive
occurrence of ANY end-of-article heading pattern, wherever in the fixed
set it lies.  This definition follows the claim's words, not the source,
and exists only to be compared against `CleanWikipediaContent`. -/
def truncAtFirstHeadingClaim : List Char → List Char
  | [] => []
  | c :: rest =>
      if endSections.any (fun sec => ciIsPrefix (sectionPat sec) (c :: rest))
      then [] else c :: truncAtFirstHeadingClaim rest

/-- Narrative cleaning as the claim words it: same removal, collapsing and
stripping phases as the source, but with truncation at the globally first
heading occurrence.  Follows the claim's words, for comparison only. -/
def cleanNarrativeClaim (content : String) : String :=
  if content = "" then ""
  else
    let l1 := subCitations content.data
    let l2 := subEditorial l1
    String.mk (pyStrip (collapseNl (truncAtFirstHeadingClaim l2)))

/-- Fuel-driven core of Python `s.split(sep)[-1]` for a non-empty literal
separator: scan left to right; on a separator occurrence drop it and keep
only what follows; the final remainder with no occurrence is the last
piece.  The fuel (at least the string length) only bounds the recursion. -/
def splitLastAux (sep : List Char) : Nat → List Char → List Char
  | 0, s => s
  | _ + 1, [] => []
  | fuel + 1, c :: rest =>
      if occursIn sep (c :: rest) then
        (if sep.isPrefixOf (c :: rest) then
          splitLastAux sep fuel (List.drop sep.length (c :: rest))
        else splitLastAux sep fuel rest)
      else c :: rest

/-- `URL.split('/wiki/')[-1]` generalised: the last piece of a Python
`split` on a non-empty separator. -/
def splitLastPiece (sep s : List Char) : List Char :=
  splitLastAux sep s.length s

/-- Outcome of `wikipedia.page(title)`: a page (canonical URL, parsed
HTML, plain content), a `PageError`, or a `DisambiguationError` carrying
the ambiguous options. -/
inductive PageOutcome where
  | ok (url : String) (html : HtmlDoc) (content : String)
  | pageError
  | ambiguousMatch (options : List String)

/-- The Wikipedia library as an oracle: `wikipedia.search(company,
results = 1)` and `wikipedia.page(title, auto_suggest = False,
redirect = True)`. -/
structure WikiEnv where
  searchResults : String → List String
  page : String → PageOutcome

/-- The title-resolution phase of `getFromWikipedia`
(`PT1_wikiScraping.py` lines 48-67): with a URL, the last `'/wiki/'`
piece (raising, hence `none`, when it is empty); without one, the top
search result for the company, `none` on an empty result set. -/
def resolveTitle (env : WikiEnv) (Company URL : String) : Option String :=
  if URL ≠ "" then
    let t := String.mk (splitLastPiece "/wiki/".data URL.data)
    if t = "" then none else some t
  else
    match env.searchResults Company with
    | [] => none
    | t :: _ => some t

/-- The fetch-and-validate phase of `getFromWikipedia`
(`PT1_wikiScraping.py` lines 73-96): page errors and disambiguation
errors give the all-`None` triple; otherwise the vCard and cleaned
content are built and the result is returned only when the ticker passes
the Validation Gate. -/
def fetchAndValidate (env : WikiEnv) (Ticker t : String) : WikiTriple :=
  match env.page t with
  | .pageError => (none, none, none)
  | .ambiguousMatch _ => (none, none, none)
  | .ok url html content =>
      let vc := ParseVCard html
      let cleaned := CleanWikipediaContent content
      if validationGate Ticker vc then (some url, some vc, some cleaned)
      else (none, none, none)

/-- `getFromWikipedia(Company, Ticker, URL = '')`
(`PT1_wikiScraping.py` lines 46-96). -/
def getFromWikipedia (env : WikiEnv) (Company Ticker : String)
    (URL : String := "") : WikiTriple :=
  match resolveTitle env Company URL with
  | none => (none, none, none)
  | some t => if t = "" then (none, none, none) else fetchAndValidate env Ticker t

/-- The one-shot result channel message of `_search_with_timeout_worker`
(`PT1_bingSeleniumScraping.py` lines 324-332): exactly one of
`('success', url, wiki_data)`, `('no_url', None, None)` and
`('error', None, str(err))`. -/
inductive WorkerMsg where
  | success (url : String) (data : WikiTriple)
  | noUrl
  | error (msg : String)
deriving DecidableEq

/-- The worker's external world: the Bing search outcome of each attempt
(numbered from 1), the Wikipedia fetch for a found URL, and whether the
body raises before producing a result (driver creation or search
machinery failing), with the exception's message. -/
structure BingEnv where
  attempts : Nat → Option String
  wiki : String → WikiTriple
  raises : Bool
  errMsg : String

/-- The retry loop `for attempt in range(1, retries + 1)` of the worker:
the first non-`None` search result among attempts `start`, `start + 1`,
…, for the given number of remaining attempts. -/
def firstHitFrom (f : Nat → Option String) (start : Nat) : Nat → Option String
  | 0 => none
  | n + 1 =>
      match f start with
      | some u => some u
      | none => firstHitFrom f (start + 1) n

/-- `_search_with_timeout_worker` (`PT1_bingSeleniumScraping.py` lines
306-338), as the single message it places on the result channel. -/
def searchWorkerMsg (env : BingEnv) (retries : Nat) : WorkerMsg :=
  if env.raises then .error env.errMsg
  else
    match firstHitFrom env.attempts 1 retries with
    | some url => .success url (env.wiki url)
    | none => .noUrl

/-- Python truthiness of `wiki_data` at `PT1_bingSeleniumScraping.py`
line 375: `wiki_data` is the 3-tuple returned by `getFromWikipedia`, and
a tuple's truthiness is its non-emptiness, so a 3-tuple is always
truthy — even `(None, None, None)`. -/
def tripleTruthy (_ : WikiTriple) : Bool := true

/-- The result handling of `getFromBingSelenium`
(`PT1_bingSeleniumScraping.py` lines 371-389): an empty queue yields
`None`; a `'success'` message yields `data` when `data` is truthy, else
`None`; `'no_url'` and `'error'` yield `None`. -/
def processWorkerResult (q : Option WorkerMsg) : Option WikiTriple :=
  match q with
  | none => none
  | some (.success _ data) => if tripleTruthy data then some data else none
  | some .noUrl => none
  | some (.error _) => none

/-- Runtime behaviour of the spawned worker process: whether it produces
its result (and exits) within `SEARCH_TIMEOUT`, and whether it shuts
down within the 5-second grace period when sent `terminate()`.
An unconditional `kill()` always stops it. -/
structure WorkerRt where
  producesWithinDeadline : Bool
  stopsOnTerminate : Bool

/-- Whether the worker process is running or stopped. -/
inductive ProcStatus where
  | running
  | stopped
deriving DecidableEq

/-- `worker.is_alive()` after `worker.join(timeout = SEARCH_TIMEOUT)`:
running exactly when no result was produced within the deadline. -/
def statusAfterJoin (w : WorkerRt) : ProcStatus :=
  if w.producesWithinDeadline then .stopped else .running

/-- `getFromBingSelenium` (`PT1_bingSeleniumScraping.py` lines 341-389)
reduced to its observable outcome: the final status of the worker process
and the value returned to the caller.  On timeout: `terminate()`, a
5-second `join`, `kill()` if still alive, and `None` returned.
Otherwise the queued message is processed. -/
def getFromBingSeleniumModel (w : WorkerRt) (q : Option WorkerMsg) :
    ProcStatus × Option WikiTriple :=
  let s0 := statusAfterJoin w
  if s0 = ProcStatus.running then
    let s1 := if w.stopsOnTerminate then ProcStatus.stopped else s0
    let s2 := if s1 = ProcStatus.running then ProcStatus.stopped else s1
    (s2, none)
  else
    (s0, processWorkerResult q)

/-- A document of the `PortfolioIntelligence` collection, restricted to
the fields the orchestrator reads and writes. -/
structure StoreDoc where
  ticker : String
  etfHoldingDate : String
  companyName : String
  wikiResolver : Option String
  wikiUrl : Option String
  wikiContent : Option String
  wikiVcard : Option VCard
deriving DecidableEq

/-- `Collection.find({"wiki_resolver": {"$exists": False}})`
(`PT1_wikiScraping.py` line 153): the documents without a resolver tag,
in collection order. -/
def findUnresolved (store : List StoreDoc) : List StoreDoc :=
  store.filter (fun d => d.wikiResolver.isNone)

/-- `Collection.update_one({'ticker': t, 'etf_holding_date': d}, ...)`:
apply `f` to the first document matching the filter, leaving the rest
unchanged. -/
def updateOne (t d : String) (f : StoreDoc → StoreDoc) :
    List StoreDoc → List StoreDoc
  | [] => []
  | doc :: rest =>
      if doc.ticker = t ∧ doc.etfHoldingDate = d then f doc :: rest
      else doc :: updateOne t d f rest

/-- The `'$set'` document built from a processed row
(`PT1_wikiScraping.py` lines 168-178): ticker, company name, the three
result components, and the `'wikipedia'` resolver tag. -/
def setDoc (row : StoreDoc) (t : WikiTriple) (d : StoreDoc) : StoreDoc :=
  { d with
    ticker := row.ticker
    companyName := row.companyName
    wikiUrl := t.1
    wikiVcard := t.2.1
    wikiContent := t.2.2
    wikiResolver := some "wikipedia" }

/-- Outcome of one `getFromWikipedia` call in the orchestrator loop:
a returned triple, or an exception caught by the `except` clause. -/
inductive FetchOutcome where
  | ok (t : WikiTriple)
  | exn

/-- One iteration of the orchestrator loop (`PT1_wikiScraping.py` lines
164-183): on a truthy URL, `update_one` keyed by the row's ticker and
date; on a falsy URL or an exception, no write. -/
def processRow (oracle : String → String → FetchOutcome)
    (st : List StoreDoc) (row : StoreDoc) : List StoreDoc :=
  match oracle row.companyName row.ticker with
  | .exn => st
  | .ok t =>
      if pyTruthyOptStr t.1 then
        updateOne row.ticker row.etfHoldingDate (setDoc row t) st
      else st

/-- The orchestrator run (`PT1_wikiScraping.py` lines 153-185): snapshot
the unresolved documents once, then process each row in order against the
live store. -/
def orchestrate (oracle : String → String → FetchOutcome)
    (store : List StoreDoc) : List StoreDoc :=
  (findUnresolved store).foldl (processRow oracle) store

/-- Whether a row's resolution attempt fails: the call raises, or the
returned URL is falsy (`None` or empty). -/
def attemptFails (oracle : String → String → FetchOutcome)
    (row : StoreDoc) : Bool :=
  match oracle row.companyName row.ticker with
  | .exn => true
  | .ok t => !(pyTruthyOptStr t.1)

/-- The `vcard_columns` allow-list of `getFromYahooFinance`
(`PT1_yFinScraping.py` lines 37-39). -/
def vcardColumns : List String :=
  ["address1", "city", "state", "zip", "country", "phone", "website",
   "industry", "industryKey", "industryDisp", "sector"]

/-- `ticker.replace('.', '-')`. -/
def dashTicker (t : String) : String :=
  String.mk (t.data.map (fun c => if c = '.' then '-' else c))

/-- The dictionary returned by `getFromYahooFinance` on success. -/
structure YCandidate where
  url : String
  vcard : VCard
  content : String
deriving DecidableEq

/-- Lookup in the `yf.Ticker(...).info` attribute mapping. -/
def yfInfoGet (info : List (String × String)) (k : String) : Option String :=
  (info.find? (fun kv => kv.1 = k)).map (fun kv => kv.2)

/-- `getFromYahooFinance` (`PT1_yFinScraping.py` lines 14-61) over an
oracle mapping each queried symbol to its `info` mapping: retry once with
the dash-normalised symbol when `'longBusinessSummary'` is absent, build
the vCard from the allow-listed attributes of the effective response,
fail on empty summary text, succeed unconditionally otherwise. -/
def getFromYahooFinance (info : String → List (String × String))
    (ticker : String) : Option YCandidate :=
  let i1 := info ticker
  let iEff := if (yfInfoGet i1 "longBusinessSummary").isSome then i1
              else info (dashTicker ticker)
  let vc := iEff.filter (fun kv => vcardColumns.contains kv.1)
  let content := (yfInfoGet iEff "longBusinessSummary").getD ""
  if content = "" then none
  else some { url := "https://finance.yahoo.com/quote/" ++ ticker,
              vcard := vc, content := content }

/-- The example identity card of the spec's validation-correctness
property. -/
def cardEx : VCard := [("Traded as", "NASDAQ: ABC, NYSE: XYZ")]

/-- A Wikipedia oracle for a page whose vCard lists `NYSE: AAA` as its
traded symbols. -/
def wikiEnv3 : WikiEnv :=
  { searchResults := fun _ => []
    page := fun _ => PageOutcome.ok "https://en.wikipedia.org/wiki/Acme"
      [HtmlTable.mk ["vcard"] [HtmlRow.mk (some "Traded as") (some "NYSE: AAA")]]
      "Acme text" }

/-- A worker environment in which Bing finds a Wikipedia URL on the first
attempt but the fetched page fails validation for ticker `ZZZ` (its vCard
lists only `NYSE: AAA`), so `getFromWikipedia` returns the all-`None`
triple. -/
def bingEnv3 : BingEnv :=
  { attempts := fun _ => some "https://en.wikipedia.org/wiki/Acme"
    wiki := fun url => getFromWikipedia wikiEnv3 "Acme" "ZZZ" url
    raises := false
    errMsg := "" }

/-- A Wikipedia oracle whose page has no info region at all (empty vCard). -/
def env10c : WikiEnv :=
  { searchResults := fun _ => ["Acme"]
    page := fun _ => PageOutcome.ok "https://u" [] "Acme is a company." }

/-- A Wikipedia oracle whose page carries `NYSE: AB` in its vCard. -/
def env10 : WikiEnv :=
  { searchResults := fun _ => ["Acme"]
    page := fun _ => PageOutcome.ok "https://u"
      [HtmlTable.mk ["vcard"] [HtmlRow.mk (some "Traded as") (some "NYSE: AB")]]
      "text" }

/-- A Wikipedia oracle for which every page fetch raises a
`DisambiguationError`. -/
def env6amb : WikiEnv :=
  { searchResults := fun _ => ["Acme"]
    page := fun _ => PageOutcome.ambiguousMatch ["Acme Inc", "Acme Corp"] }

/-- A Wikipedia oracle for which every page fetch raises a `PageError`. -/
def env6err : WikiEnv :=
  { searchResults := fun _ => ["Acme"]
    page := fun _ => PageOutcome.pageError }

/-- A vCard naming `NYSE: T`, used by the orchestrator fixtures. -/
def vc5 : VCard := [("Traded as", "NYSE: T")]

/-- An unresolved store document with key `("T", "D")` and company `A`. -/
def r1 : StoreDoc :=
  { ticker := "T", etfHoldingDate := "D", companyName := "A",
    wikiResolver := none, wikiUrl := none, wikiContent := none,
    wikiVcard := none }

/-- A second unresolved document sharing `r1`'s `(ticker, date)` key but
with company `B`. -/
def r2 : StoreDoc := { r1 with companyName := "B" }

/-- A fetch oracle that fails for company `A` (all-`None` triple) and
succeeds for company `B`. -/
def oracle5 (c _t : String) : FetchOutcome :=
  if c = "B" then
    .ok (some "https://en.wikipedia.org/wiki/B", some vc5, some "text")
  else .ok (none, none, none)

/-- A fetch oracle that fails for every row. -/
def oracleFail (_c _t : String) : FetchOutcome := .ok (none, none, none)

/-- A Yahoo Finance oracle that knows `BRK-B` but not `BRK.B`. -/
def infoA (s : String) : List (String × String) :=
  if s = "BRK-B" then
    [("longBusinessSummary", "Insurance"), ("city", "Omaha"), ("foo", "x")]
  else []

/-- The vCard example document of the spec's identity-card extraction
property. -/
def docC8 : HtmlDoc :=
  [HtmlTable.mk ["vcard"]
    [HtmlRow.mk (some "Traded\xA0as") (some "NASDAQ:\xA0ABC[2]")]]

/-- A document whose only table carries neither marker class. -/
def docNoBox : HtmlDoc := [HtmlTable.mk ["navbox"] []]

/-- Every document selected by the unresolved-records query lacks the
resolver tag. -/
theorem findUnresolved_untagged (store : List StoreDoc) (r : StoreDoc)
    (h : r ∈ findUnresolved store) : r.wikiResolver = none := by
  have hp := (List.mem_filter.mp h).2
  simpa [Option.isNone_iff_eq_none] using hp

/-- C1 (counterexample): the claim says a candidate is rejected whenever
the `'Traded as'` field is absent, for every symbol including the empty
one; but the Gate of line 92 reads an absent field as `''` and Python
`'' in ''` is `True`, so the empty symbol is accepted against a card with
no `'Traded as'` field. -/
theorem C1_counterexample :
    validationGate "" [] = true ∧ tradedAsOf [] = none := by decide

/-- C1 (amended): the Gate accepts `s` iff `s` occurs as a case-sensitive
substring of the `'Traded as'` value when the field is present; when the
field is absent the Gate compares against the empty string, so it accepts
exactly the empty symbol; on the card `"NASDAQ: ABC, NYSE: XYZ"` it
accepts `ABC` and `XYZ` and rejects `ABD`. -/
theorem C1_amended :
    (∀ (s : String) (vc : VCard) (v : String), tradedAsOf vc = some v →
      (validationGate s vc = true ↔ occursIn s.data v.data = true)) ∧
    (∀ (s : String) (vc : VCard), tradedAsOf vc = none →
      (validationGate s vc = true ↔ s = "")) ∧
    (validationGate "ABC" cardEx = true ∧ validationGate "XYZ" cardEx = true ∧
      validationGate "ABD" cardEx = false) := by
  refine ⟨?_, ?_, by decide⟩
  · intro s vc v h
    unfold validationGate
    rw [h]
    exact Iff.rfl
  · intro s vc h
    unfold validationGate
    rw [h]
    have hnil : ((none : Option String).getD "").data = [] := rfl
    rw [hnil]
    constructor
    · intro hE
      simp only [occursIn, List.isEmpty_iff] at hE
      exact String.ext hE
    · intro hs
      subst hs
      rfl

/-- C1 (witness for the amended theorem): both conditional conjuncts
instantiated at concrete cards. -/
theorem C1_amended_witness :
    (validationGate "Q" [("Traded as", "AAQQ")] = true ↔
      occursIn "Q".data "AAQQ".data = true) ∧
    (validationGate "Q" [] = true ↔ "Q" = "") :=
  ⟨C1_amended.1 "Q" [("Traded as", "AAQQ")] "AAQQ" (by decide),
   C1_amended.2.1 "Q" [] (by decide)⟩

/-- C2: whatever the worker's runtime behaviour and whatever sits on the
result channel, after `getFromBingSelenium` returns the worker process is
stopped; and when no result arrived within the deadline the call reports
the timeout failure by returning `None`. -/
theorem C2_timeout (w : WorkerRt) (q : Option WorkerMsg) :
    (getFromBingSeleniumModel w q).1 = ProcStatus.stopped ∧
    (w.producesWithinDeadline = false →
      (getFromBingSeleniumModel w q).2 = none) := by
  obtain ⟨p, s⟩ := w
  cases p <;> cases s <;>
    simp [getFromBingSeleniumModel, statusAfterJoin]

/-- C2 (witness): a worker that misses the deadline and ignores
`terminate()` is still stopped afterwards, and the call returns `None`. -/
theorem C2_timeout_witness :
    (getFromBingSeleniumModel ⟨false, false⟩ none).1 = ProcStatus.stopped ∧
    (getFromBingSeleniumModel ⟨false, false⟩ none).2 = none :=
  ⟨(C2_timeout ⟨false, false⟩ none).1, (C2_timeout ⟨false, false⟩ none).2 rfl⟩

/-- C3 (code bug): the worker reports `('success', url, wiki_data)` even
when `wiki_data` is the all-`None` validation-failure triple, and the
caller's `if data:` test is satisfied by any 3-tuple, so
`getFromBingSelenium` returns the all-`None` triple instead of the `None`
the claim (and the function's own docstring and unreachable
`Validation failed` branch) promise. -/
theorem C3_validation_bug :
    searchWorkerMsg bingEnv3 1 =
      WorkerMsg.success "https://en.wikipedia.org/wiki/Acme" (none, none, none) ∧
    processWorkerResult (some (searchWorkerMsg bingEnv3 1)) =
      some ((none : Option String), (none : Option VCard), (none : Option String)) ∧
    processWorkerResult (some (searchWorkerMsg bingEnv3 1)) ≠ none := by
  refine ⟨by decide, by decide, by decide⟩

/-- C4: the read query selects only documents without a resolver tag;
hence after a run (whose only writes set the tag) a second run's query
still selects only untagged documents, so no already-tagged record is
selected or resolved again; and every successful write sets the
`'wikipedia'` tag. -/
theorem C4_idempotent :
    (∀ (store : List StoreDoc) (r : StoreDoc),
      r ∈ findUnresolved store → r.wikiResolver = none) ∧
    (∀ (oracle : String → String → FetchOutcome) (store : List StoreDoc)
      (r : StoreDoc), r ∈ findUnresolved (orchestrate oracle store) →
        r.wikiResolver = none) ∧
    (∀ (row : StoreDoc) (t : WikiTriple) (d : StoreDoc),
      (setDoc row t d).wikiResolver = some "wikipedia") :=
  ⟨findUnresolved_untagged,
   fun _ _ r h => findUnresolved_untagged _ r h,
   fun _ _ _ => rfl⟩

/-- C4 (witness): the selection hypothesis discharged on a one-document
store. -/
theorem C4_idempotent_witness : r1.wikiResolver = none :=
  C4_idempotent.1 [r1] r1 (by decide)

/-- A write keyed by `(t, d)` leaves every document whose key differs
untouched, at its position. -/
theorem updateOne_preserves_other (t d : String) (f : StoreDoc → StoreDoc) :
    ∀ (l : List StoreDoc) (i : Nat) (r : StoreDoc), l[i]? = some r →
      ¬(r.ticker = t ∧ r.etfHoldingDate = d) →
      (updateOne t d f l)[i]? = some r := by
  intro l
  induction l with
  | nil => intro i r h _; simp at h
  | cons doc rest ih =>
      intro i r h hk
      by_cases hc : doc.ticker = t ∧ doc.etfHoldingDate = d
      · cases i with
        | zero =>
            simp only [List.getElem?_cons_zero, Option.some.injEq] at h
            subst h
            exact absurd hc hk
        | succ i =>
            simp only [List.getElem?_cons_succ] at h
            simp [updateOne, hc, h]
      · cases i with
        | zero =>
            simp only [List.getElem?_cons_zero, Option.some.injEq] at h
            subst h
            simp [updateOne, hc]
        | succ i =>
            simp only [List.getElem?_cons_succ] at h
            simp only [updateOne, if_neg hc, List.getElem?_cons_succ]
            exact ih i r h hk

/-- Folding the orchestrator step over a row snapshot preserves any
document whose key differs from the key of every row whose attempt
succeeds. -/
theorem foldl_processRow_preserves (oracle : String → String → FetchOutcome) :
    ∀ (rows st : List StoreDoc) (i : Nat) (r : StoreDoc),
      st[i]? = some r →
      (∀ r' ∈ rows, attemptFails oracle r' = false →
        ¬(r'.ticker = r.ticker ∧ r'.etfHoldingDate = r.etfHoldingDate)) →
      (rows.foldl (processRow oracle) st)[i]? = some r := by
  intro rows
  induction rows with
  | nil => intro st i r h _; simpa using h
  | cons row rows ih =>
      intro st i r h hcond
      have hstep : (processRow oracle st row)[i]? = some r := by
        unfold processRow
        cases horacle : oracle row.companyName row.ticker with
        | exn => exact h
        | ok tr =>
            by_cases htr : pyTruthyOptStr tr.1 = true
            · have hfail : attemptFails oracle row = false := by
                unfold attemptFails
                rw [horacle]
                simp [htr]
              have hk := hcond row (List.mem_cons_self row rows) hfail
              simp only [htr, if_true]
              exact updateOne_preserves_other _ _ _ st i r h
                (fun hr => hk ⟨hr.1.symm, hr.2.symm⟩)
            · simp only [Bool.not_eq_true] at htr
              simp [htr, h]
      have hrest : ∀ r' ∈ rows, attemptFails oracle r' = false →
          ¬(r'.ticker = r.ticker ∧ r'.etfHoldingDate = r.etfHoldingDate) :=
        fun r' hm hf => hcond r' (List.mem_cons_of_mem row hm) hf
      simpa using ih (processRow oracle st row) i r hstep hrest

/-- C5 (amended): a record whose resolution attempt fails triggers no
write during its own processing step; and such a record is left entirely
unchanged by the whole run provided no selected record with a successful
attempt shares its `(ticker, etf_holding_date)` key — the source's
`update_one` is keyed by ticker and date, not by document identity, so a
key collision can overwrite a failed record (see the counterexample). -/
theorem C5_amended :
    (∀ (oracle : String → String → FetchOutcome) (st : List StoreDoc)
      (row : StoreDoc), attemptFails oracle row = true →
        processRow oracle st row = st) ∧
    (∀ (oracle : String → String → FetchOutcome) (store : List StoreDoc)
      (i : Nat) (r : StoreDoc), store[i]? = some r →
        attemptFails oracle r = true →
        (∀ r' ∈ findUnresolved store, attemptFails oracle r' = false →
          ¬(r'.ticker = r.ticker ∧ r'.etfHoldingDate = r.etfHoldingDate)) →
        (orchestrate oracle store)[i]? = some r) := by
  constructor
  · intro oracle st row hfail
    unfold processRow
    unfold attemptFails at hfail
    cases horacle : oracle row.companyName row.ticker with
    | exn => rfl
    | ok tr =>
        rw [horacle] at hfail
        simp only [Bool.not_eq_true'] at hfail
        simp [hfail]
  · intro oracle store i r h _hfail hcond
    unfold orchestrate
    exact foldl_processRow_preserves oracle (findUnresolved store) store i r h hcond

/-- C5 (counterexample): `r1`'s attempt fails, yet the run writes to it —
`r2` shares `r1`'s `(ticker, date)` key, `r2`'s attempt succeeds, and
`update_one`'s filter hits `r1` first — so the failed record `r1` does
not stay unchanged and even acquires the resolver tag, contradicting the
claim that a failed record is left untouched. -/
theorem C5_counterexample :
    attemptFails oracle5 r1 = true ∧
    r1.wikiResolver = none ∧
    (orchestrate oracle5 [r1, r2])[0]? ≠ some r1 ∧
    ((orchestrate oracle5 [r1, r2])[0]?).map StoreDoc.wikiResolver =
      some (some "wikipedia") := by
  refine ⟨by decide, by decide, by decide, by decide⟩

/-- C5 (witness for the amended theorem): a store with a single failing
record is returned unchanged, with the record still in place. -/
theorem C5_amended_witness :
    processRow oracleFail [r1] r1 = [r1] ∧
    (orchestrate oracleFail [r1])[0]? = some r1 :=
  ⟨C5_amended.1 oracleFail [r1] r1 (by decide),
   C5_amended.2 oracleFail [r1] 0 r1 (by decide) (by decide) (by decide)⟩

/-- C6: when the page identifier resolves to a disambiguation set the
adapter returns the all-`None` triple whatever the ambiguous options are
(it never picks one), and a non-existent page likewise yields the
all-`None` failure rather than a candidate. -/
theorem C6_hard_failures :
    (∀ (env : WikiEnv) (Company Ticker URL : String) (opts : List String),
      (∀ t, env.page t = PageOutcome.ambiguousMatch opts) →
      getFromWikipedia env Company Ticker URL = (none, none, none)) ∧
    (∀ (env : WikiEnv) (Company Ticker URL : String),
      (∀ t, env.page t = PageOutcome.pageError) →
      getFromWikipedia env Company Ticker URL = (none, none, none)) := by
  constructor
  · intro env Company Ticker URL opts h
    unfold getFromWikipedia
    cases hres : resolveTitle env Company URL with
    | none => rfl
    | some t =>
        by_cases ht : t = ""
        · simp [ht]
        · simp only [ht, if_false, fetchAndValidate, h t]
  · intro env Company Ticker URL h
    unfold getFromWikipedia
    cases hres : resolveTitle env Company URL with
    | none => rfl
    | some t =>
        by_cases ht : t = ""
        · simp [ht]
        · simp only [ht, if_false, fetchAndValidate, h t]

/-- C6 (witness): concrete always-ambiguous and always-missing oracles
both produce the all-`None` triple. -/
theorem C6_hard_failures_witness :
    getFromWikipedia env6amb "Acme" "AAA" "" = (none, none, none) ∧
    getFromWikipedia env6err "Acme" "AAA" "" = (none, none, none) :=
  ⟨C6_hard_failures.1 env6amb "Acme" "AAA" ""
      ["Acme Inc", "Acme Corp"] (fun _ => rfl),
   C6_hard_failures.2 env6err "Acme" "AAA" "" (fun _ => rfl)⟩

/-- C7 (counterexample): on
`"\n== References ==\n== See also ==\nX"` the claim's truncation at the
first occurrence of any heading gives `""` (the References heading opens
the text), but the source splits on `See also` first, which destroys the
References heading's trailing newline, so `CleanWikipediaContent` keeps
`"== References =="` — the code does not truncate at the globally first
heading. -/
theorem C7_counterexample :
    cleanNarrativeClaim "\n== References ==\n== See also ==\nX" = "" ∧
    CleanWikipediaContent "\n== References ==\n== See also ==\nX" ≠
      cleanNarrativeClaim "\n== References ==\n== See also ==\nX" := by
  refine ⟨by decide, by decide⟩

/-- C7 (amended): cleaning removes `[digits]` citation markers and
`[letters/whitespace]` editorial notes, then truncates by splitting
successively in the fixed order (See also, References, External links,
Further reading, Notes, Citations), each split keeping the text before
the first case-insensitive occurrence of `\n== heading ==\n` in the text
retained so far (so each step truncates further: every split output is a
prefix of its input), collapses 3+ newlines and trims; the spec's example
`"Foo[1] Bar[edit]\n== See also ==\nBaz"` cleans to `"Foo Bar"`, and the
counterexample input keeps `"== References =="`. -/
theorem C7_amended :
    CleanWikipediaContent "Foo[1] Bar[edit]\n== See also ==\nBaz" = "Foo Bar" ∧
    CleanWikipediaContent "\n== References ==\n== See also ==\nX" =
      "== References ==" ∧
    (∀ (pat l : List Char), splitFirstCI pat l <+: l) := by
  refine ⟨by decide, by decide, ?_⟩
  intro pat l
  induction l with
  | nil => exact ⟨[], rfl⟩
  | cons c rest ih =>
      by_cases h : ciIsPrefix pat (c :: rest) = true
      · simp only [splitFirstCI, h, if_true]
        exact ⟨c :: rest, rfl⟩
      · simp only [Bool.not_eq_true] at h
        simp only [splitFirstCI, h, Bool.false_eq_true, if_false]
        obtain ⟨tl, htl⟩ := ih
        exact ⟨tl, by rw [List.cons_append, htl]⟩

/-- Membership in a Python-dict insertion: either the inserted pair, or a
pair already present. -/
theorem dictInsert_mem_cases (k v : String) :
    ∀ (l : VCard) (kv : String × String),
      kv ∈ dictInsert k v l → kv = (k, v) ∨ kv ∈ l := by
  intro l
  induction l with
  | nil =>
      intro kv h
      simp only [dictInsert, List.mem_singleton] at h
      exact Or.inl h
  | cons hd rest ih =>
      intro kv h
      obtain ⟨k', v'⟩ := hd
      by_cases hk : k' = k
      · simp only [dictInsert, hk, if_true, List.mem_cons] at h
        rcases h with h | h
        · exact Or.inl h
        · exact Or.inr (List.mem_cons_of_mem _ h)
      · simp only [dictInsert, hk, if_false, List.mem_cons] at h
        rcases h with h | h
        · exact Or.inr (by simp [h])
        · rcases ih kv h with h' | h'
          · exact Or.inl h'
          · exact Or.inr (List.mem_cons_of_mem _ h')

/-- Provenance of `ParseVCard`'s row fold: every entry either was in the
accumulator or comes from a row with both cells, normalised, with both
sides non-empty. -/
theorem parseRow_foldl_mem :
    ∀ (rows : List HtmlRow) (acc : VCard) (kv : String × String),
      kv ∈ rows.foldl parseRow acc →
      kv ∈ acc ∨ ∃ row ∈ rows, ∃ h d, row.header = some h ∧ row.data = some d ∧
        kv.1 = nbspToSpace h ∧ kv.2 = cleanValue d ∧ kv.1 ≠ "" ∧ kv.2 ≠ "" := by
  intro rows
  induction rows with
  | nil => intro acc kv h; exact Or.inl (by simpa using h)
  | cons row rows ih =>
      intro acc kv h
      have h' := ih (parseRow acc row) kv (by simpa using h)
      rcases h' with h' | ⟨row', hm, hrest⟩
      · cases hh : row.header with
        | none =>
            left
            simpa [parseRow, hh] using h'
        | some hdr =>
            cases hd : row.data with
            | none =>
                left
                simpa [parseRow, hh, hd] using h'
            | some dat =>
                by_cases hc : nbspToSpace hdr ≠ "" ∧ cleanValue dat ≠ ""
                · rw [show parseRow acc row =
                      dictInsert (nbspToSpace hdr) (cleanValue dat) acc by
                    simp [parseRow, hh, hd, hc]] at h'
                  rcases dictInsert_mem_cases _ _ acc kv h' with he | he
                  · right
                    refine ⟨row, List.mem_cons_self row rows, hdr, dat, hh, hd,
                      ?_, ?_, ?_, ?_⟩
                    · rw [he]
                    · rw [he]
                    · rw [he]; exact hc.1
                    · rw [he]; exact hc.2
                  · exact Or.inl he
                · left
                  simpa [parseRow, hh, hd, hc] using h'
      · exact Or.inr ⟨row', List.mem_cons_of_mem row hm, hrest⟩

/-- C8: identity-card extraction returns the empty mapping (not an error)
when no info region matches; every entry of a returned mapping comes from
a row of the first matching region having both a header and a data cell,
with non-breaking spaces normalised, citation markers stripped from the
value, and both sides non-empty; and the spec's example row
`"Traded\xa0as" / "NASDAQ:\xa0ABC[2]"` yields exactly
`"Traded as" -> "NASDAQ: ABC"`. -/
theorem C8_parse_vcard :
    (∀ (doc : HtmlDoc), findInfobox doc = none → ParseVCard doc = []) ∧
    (∀ (doc : HtmlDoc) (kv : String × String), kv ∈ ParseVCard doc →
      ∃ tbl, findInfobox doc = some tbl ∧ ∃ row ∈ tbl.rows, ∃ h d,
        row.header = some h ∧ row.data = some d ∧
        kv.1 = nbspToSpace h ∧ kv.2 = cleanValue d ∧ kv.1 ≠ "" ∧ kv.2 ≠ "") ∧
    ParseVCard docC8 = [("Traded as", "NASDAQ: ABC")] := by
  refine ⟨?_, ?_, by decide⟩
  · intro doc h
    unfold ParseVCard
    rw [h]
  · intro doc kv h
    unfold ParseVCard at h
    cases hfind : findInfobox doc with
    | none => rw [hfind] at h; simp at h
    | some tbl =>
        rw [hfind] at h
        rcases parseRow_foldl_mem tbl.rows [] kv h with h' | h'
        · simp at h'
        · exact ⟨tbl, rfl, h'⟩

/-- C8 (witness): the no-region hypothesis and the membership hypothesis
discharged on concrete documents. -/
theorem C8_parse_vcard_witness :
    ParseVCard docNoBox = [] ∧
    (∃ tbl, findInfobox docC8 = some tbl ∧ ∃ row ∈ tbl.rows, ∃ h d,
      row.header = some h ∧ row.data = some d ∧
      ("Traded as", "NASDAQ: ABC").1 = nbspToSpace h ∧
      ("Traded as", "NASDAQ: ABC").2 = cleanValue d ∧
      ("Traded as", "NASDAQ: ABC").1 ≠ "" ∧
      ("Traded as", "NASDAQ: ABC").2 ≠ "") :=
  ⟨C8_parse_vcard.1 docNoBox (by decide),
   C8_parse_vcard.2.1 docC8 ("Traded as", "NASDAQ: ABC") (by decide)⟩

/-- C9: the financial-data adapter queries by symbol; when the
business-summary field is present it uses that response directly (empty
summary text gives `None`, otherwise an unconditional candidate); when
the field is absent it retries exactly once with the dot replaced by a
dash and decides from the retried response alone; and any returned
candidate has a vCard drawn entirely from the allow-list and a non-empty
summary — no Validation Gate is involved. -/
theorem C9_yfinance (info : String → List (String × String)) (t : String) :
    (∀ c, yfInfoGet (info t) "longBusinessSummary" = some c →
      getFromYahooFinance info t =
        (if c = "" then none
         else some ⟨"https://finance.yahoo.com/quote/" ++ t,
                    (info t).filter (fun kv => vcardColumns.contains kv.1), c⟩)) ∧
    (yfInfoGet (info t) "longBusinessSummary" = none →
      getFromYahooFinance info t =
        (if (yfInfoGet (info (dashTicker t)) "longBusinessSummary").getD "" = ""
         then none
         else some ⟨"https://finance.yahoo.com/quote/" ++ t,
                    (info (dashTicker t)).filter
                      (fun kv => vcardColumns.contains kv.1),
                    (yfInfoGet (info (dashTicker t))
                      "longBusinessSummary").getD ""⟩)) ∧
    (∀ cand, getFromYahooFinance info t = some cand →
      (∀ kv ∈ cand.vcard, vcardColumns.contains kv.1 = true) ∧
      cand.content ≠ "") := by
  refine ⟨?_, ?_, ?_⟩
  · intro c h
    simp [getFromYahooFinance, h]
  · intro h
    simp [getFromYahooFinance, h]
  · intro cand h
    unfold getFromYahooFinance at h
    by_cases hc : (yfInfoGet
        (if (yfInfoGet (info t) "longBusinessSummary").isSome then info t
         else info (dashTicker t)) "longBusinessSummary").getD "" = ""
    · simp only [hc, if_true] at h
      cases h
    · simp only [hc, if_false, Option.some.injEq] at h
      subst h
      constructor
      · intro kv hm
        exact (List.mem_filter.mp hm).2
      · exact hc

/-- C9 (witness): the absent-summary hypothesis discharged on an oracle
that only knows the dash-normalised symbol. -/
theorem C9_yfinance_witness :
    getFromYahooFinance infoA "BRK.B" =
      (if (yfInfoGet (infoA (dashTicker "BRK.B"))
            "longBusinessSummary").getD "" = ""
       then none
       else some ⟨"https://finance.yahoo.com/quote/" ++ "BRK.B",
                  (infoA (dashTicker "BRK.B")).filter
                    (fun kv => vcardColumns.contains kv.1),
                  (yfInfoGet (infoA (dashTicker "BRK.B"))
                    "longBusinessSummary").getD ""⟩) :=
  (C9_yfinance infoA "BRK.B").2.1 (by decide)

/-- C10 (counterexample): a successful return of `getFromWikipedia` whose
identity card has no `'Traded as'` entry at all — the page has no info
region, the requested symbol is empty, and the gate passes because the
absent field is read as `''`; the claimed invariant "the symbol occurs as
a substring of the card's `'Traded as'` value" has no value to hold of. -/
theorem C10_counterexample :
    (getFromWikipedia env10c "Acme" "" "").1 = some "https://u" ∧
    (getFromWikipedia env10c "Acme" "" "").2.1 = some ([] : VCard) ∧
    tradedAsOf [] = none := by
  refine ⟨by decide, by decide, by decide⟩

/-- The fetch-and-validate phase returns a fully populated triple whose
card passed the Gate whenever its URL component is non-`None`. -/
theorem fetchAndValidate_spec (env : WikiEnv) (Ticker t u : String)
    (h : (fetchAndValidate env Ticker t).1 = some u) :
    ∃ vc cleaned,
      fetchAndValidate env Ticker t = (some u, some vc, some cleaned) ∧
      validationGate Ticker vc = true := by
  cases hp : env.page t with
  | pageError =>
      have heq : fetchAndValidate env Ticker t = (none, none, none) := by
        unfold fetchAndValidate
        rw [hp]
      rw [heq] at h
      simp at h
  | ambiguousMatch opts =>
      have heq : fetchAndValidate env Ticker t = (none, none, none) := by
        unfold fetchAndValidate
        rw [hp]
      rw [heq] at h
      simp at h
  | ok url html content =>
      by_cases hg : validationGate Ticker (ParseVCard html) = true
      · have heq : fetchAndValidate env Ticker t =
            (some url, some (ParseVCard html),
             some (CleanWikipediaContent content)) := by
          unfold fetchAndValidate
          rw [hp]
          simp [hg]
        rw [heq] at h
        simp only [Option.some.injEq] at h
        exact ⟨ParseVCard html, CleanWikipediaContent content, by rw [heq, h], hg⟩
      · have heq : fetchAndValidate env Ticker t = (none, none, none) := by
          unfold fetchAndValidate
          rw [hp]
          simp [hg]
        rw [heq] at h
        simp at h

/-- C10 (amended): whenever the URL component of a `getFromWikipedia`
return is non-`None`, the identity card and the cleaned narrative are
also non-`None` and the card passed the Validation Gate as the code
defines it (symbol contained in the `'Traded as'` value, an absent field
read as the empty string) — so callers may branch on the URL component
alone. -/
theorem C10_amended (env : WikiEnv) (Company Ticker URL u : String)
    (h : (getFromWikipedia env Company Ticker URL).1 = some u) :
    ∃ vc cleaned,
      getFromWikipedia env Company Ticker URL = (some u, some vc, some cleaned) ∧
      validationGate Ticker vc = true := by
  cases hres : resolveTitle env Company URL with
  | none =>
      have hnone : getFromWikipedia env Company Ticker URL = (none, none, none) := by
        unfold getFromWikipedia
        rw [hres]
      rw [hnone] at h
      simp at h
  | some t =>
      by_cases ht : t = ""
      · have hempty : getFromWikipedia env Company Ticker URL =
            (none, none, none) := by
          unfold getFromWikipedia
          rw [hres]
          simp [ht]
        rw [hempty] at h
        simp at h
      · have heq : getFromWikipedia env Company Ticker URL =
            fetchAndValidate env Ticker t := by
          unfold getFromWikipedia
          rw [hres]
          simp [ht]
        rw [heq] at h ⊢
        exact fetchAndValidate_spec env Ticker t u h

/-- C10 (witness for the amended theorem): the non-`None` hypothesis
discharged on a concrete oracle whose page carries `NYSE: AB`. -/
theorem C10_amended_witness :
    ∃ vc cleaned,
      getFromWikipedia env10 "Acme" "AB" "" =
        (some "https://u", some vc, some cleaned) ∧
      validationGate "AB" vc = true :=
  C10_amended env10 "Acme" "AB" "" "https://u" (by decide)
